import Mathlib

/-!
# Exynos DRM buffer manager (`drivers/gpu/drm/exynos/exynos_drm_buf.c`)

A shallow embedding of the buffer allocation layer of the Exynos DRM driver.

* The buffer descriptor `struct exynos_drm_gem_buf` is a record of naturals
  (pointers and addresses are machine words).
* Every kernel service the file calls (`dma_alloc_attrs`, `dma_free_attrs`,
  `drm_calloc_large`, `drm_free_large`, `kzalloc`, `kfree`,
  `sg_alloc_table_from_pages`, `sg_free_table`) is external.  A call is
  recorded, with its arguments and its result, in a trace of `kcall`s; the
  results come from an `alloc_env`, one answer per service, so that a theorem
  quantified over every `alloc_env` covers every behaviour of the services.
* The target is 32-bit ARM (the board file lives under `arch/arm`), so
  `unsigned int`, `unsigned long`, `dma_addr_t` and pointers are 32 bits wide.
-/

namespace ExynosDrmBuf

/-! ## Machine words and `linux/err.h` -/

/-- Number of values of a 32-bit word (`unsigned int`, `unsigned long`,
`dma_addr_t` and pointers on this target). -/
def WORD_RANGE : Nat := 4294967296

/-- The errno value of `ENOMEM`. -/
def ENOMEM : Int := 12

/-- The constant `MAX_ERRNO` of `linux/err.h`. -/
def MAX_ERRNO : Nat := 4095

/-- Storing a value in a C `int`: two's complement wrap to 32 bits. -/
def int32 (x : Int) : Int := (x + 2147483648) % 4294967296 - 2147483648

/-- The cast `(void *) error` of `linux/err.h`. -/
def ERR_PTR (error : Int) : Nat := (error % 4294967296).toNat

/-- The test `(unsigned long)ptr >= (unsigned long)-MAX_ERRNO` of `linux/err.h`. -/
def IS_ERR (ptr : Nat) : Bool := decide (WORD_RANGE - MAX_ERRNO ≤ ptr % WORD_RANGE)

/-- The cast `(long) ptr` of `linux/err.h`. -/
def PTR_ERR (ptr : Nat) : Int :=
  if ptr % WORD_RANGE < 2147483648 then ((ptr % WORD_RANGE : Nat) : Int)
  else ((ptr % WORD_RANGE : Nat) : Int) - 4294967296

/-! ## Data model -/

/-- The members of `enum dma_attr` that the file names. -/
inductive dma_attr where
  | DMA_ATTR_WRITE_COMBINE
  | DMA_ATTR_NON_CONSISTENT
  | DMA_ATTR_NO_KERNEL_MAPPING
  | DMA_ATTR_SKIP_CPU_SYNC
  | DMA_ATTR_FORCE_CONTIGUOUS
  | DMA_ATTR_SKIP_BUFFER_CLEAR
  deriving DecidableEq, Repr

/-- A `struct dma_attrs`: the set of attributes whose bit is set. -/
abbrev dma_attrs := Finset dma_attr

/-- The call `init_dma_attrs(&attrs)`: every bit cleared. -/
def init_dma_attrs : dma_attrs := ∅

/-- The call `dma_set_attr(attr, &attrs)`. -/
def dma_set_attr (attr : dma_attr) (attrs : dma_attrs) : dma_attrs := insert attr attrs

/-- Constants and macros of headers outside the excerpt, taken as parameters:
`PAGE_SHIFT`, the three `EXYNOS_BO_*` flag masks and `phys_to_page`. -/
structure platform where
  PAGE_SHIFT : Nat
  EXYNOS_BO_NONCONTIG : Nat
  EXYNOS_BO_CACHABLE : Nat
  EXYNOS_BO_WC : Nat
  phys_to_page : Nat → Nat

/-- The macro `PAGE_SIZE`, that is `1UL << PAGE_SHIFT`. -/
def PAGE_SIZE (P : platform) : Nat := 1 <<< P.PAGE_SHIFT

/-- What the file reads of a `struct drm_device`: whether its device has an
IOMMU mapping. -/
structure drm_device where
  iommu_mapping : Bool
  deriving DecidableEq, Repr

/-- The query `is_drm_iommu_supported(dev)`. -/
def is_drm_iommu_supported (dev : drm_device) : Bool := dev.iommu_mapping

/-- The descriptor `struct exynos_drm_gem_buf`; a pointer field holds `0` for
`NULL`. -/
structure exynos_drm_gem_buf where
  kvaddr : Nat
  dma_addr : Nat
  dma_attrs : dma_attrs
  pages : Nat
  sgt : Nat
  size : Nat
  deriving DecidableEq

/-- Memory holding arrays of page handles: the block that starts at a pointer. -/
abbrev page_heap := Nat → List Nat

/-- One call of an external kernel service, with its arguments and (for the
allocating services) its result. -/
inductive kcall where
  | dma_alloc_attrs (size : Nat) (attrs : dma_attrs) (ret : Nat) (dma_handle : Nat)
  | dma_free_attrs (size : Nat) (cpu_addr : Nat) (dma_handle : Nat) (attrs : dma_attrs)
  | drm_calloc_large (nmemb : Nat) (ret : Nat)
  | drm_free_large (ptr : Nat)
  | kzalloc (ret : Nat)
  | kfree (ptr : Nat)
  | sg_alloc_table_from_pages (sgt : Nat) (pages : Nat) (entries : List Nat)
      (n_pages : Nat) (offset : Nat) (size : Nat) (ret : Int)
  | sg_free_table (sgt : Nat)
  deriving DecidableEq

/-- The answers of the external services during one call of
`lowlevel_buffer_allocate`; each service is called at most once there.
`dma_alloc_handle` is the value found in `*dma_handle` when `dma_alloc_attrs`
returns. -/
structure alloc_env where
  drm_calloc_large_ret : Nat
  dma_alloc_ret : Nat
  dma_alloc_handle : Nat
  kzalloc_ret : Nat
  sg_alloc_table_ret : Int
  deriving DecidableEq

/-- Result of `lowlevel_buffer_allocate`: return code, descriptor, page-handle
memory and the external calls made, in order. -/
structure alloc_result where
  ret : Int
  buf : exynos_drm_gem_buf
  heap : page_heap
  calls : List kcall

/-! ## Trace queries -/

/-- Is the call a `dma_alloc_attrs`? -/
def kcall.is_dma_alloc : kcall → Bool
  | .dma_alloc_attrs _ _ _ _ => true
  | _ => false

/-- Is the call a `dma_free_attrs`? -/
def kcall.is_dma_free : kcall → Bool
  | .dma_free_attrs _ _ _ _ => true
  | _ => false

/-- Is the call a `drm_calloc_large`? -/
def kcall.is_calloc_large : kcall → Bool
  | .drm_calloc_large _ _ => true
  | _ => false

/-- Is the call a `drm_calloc_large` that returned a block? -/
def kcall.is_calloc_large_ok : kcall → Bool
  | .drm_calloc_large _ ret => decide (ret ≠ 0)
  | _ => false

/-- Is the call a `drm_free_large`? -/
def kcall.is_free_large : kcall → Bool
  | .drm_free_large _ => true
  | _ => false

/-- Is the call a `kzalloc`? -/
def kcall.is_kzalloc : kcall → Bool
  | .kzalloc _ => true
  | _ => false

/-- Is the call a `kfree`? -/
def kcall.is_kfree : kcall → Bool
  | .kfree _ => true
  | _ => false

/-- Is the call a `sg_alloc_table_from_pages`? -/
def kcall.is_sg_alloc : kcall → Bool
  | .sg_alloc_table_from_pages _ _ _ _ _ _ _ => true
  | _ => false

/-- Is the call a `sg_free_table`? -/
def kcall.is_sg_free : kcall → Bool
  | .sg_free_table _ => true
  | _ => false

/-- Is the call one of the four freeing services? -/
def kcall.is_free (c : kcall) : Bool :=
  c.is_dma_free || c.is_free_large || c.is_kfree || c.is_sg_free

/-! ## The functions of `exynos_drm_buf.c` -/

/-- The function `exynos_pages_to_sg` (lines 35-52): returns the table pointer
or an `ERR_PTR`, and the calls made.  `heap` is only read, to record the
entries the table builder is handed. -/
def exynos_pages_to_sg (P : platform) (heap : page_heap) (pages : Nat) (nr_pages : Nat)
    (env : alloc_env) : Nat × List kcall :=
  let sgt := env.kzalloc_ret
  if sgt = 0 then
    (ERR_PTR (-ENOMEM), [kcall.kzalloc sgt])
  else
    let ret := int32 env.sg_alloc_table_ret
    let c := kcall.sg_alloc_table_from_pages sgt pages (heap pages) nr_pages 0
      ((PAGE_SIZE P * nr_pages) % WORD_RANGE) ret
    if ret ≠ 0 then
      (ERR_PTR ret, [kcall.kzalloc sgt, c, kcall.kfree sgt])
    else
      (sgt, [kcall.kzalloc sgt, c])

/-- The attribute set built at lines 68-91 of `lowlevel_buffer_allocate`. -/
def buffer_attrs (P : platform) (flags : Nat) : dma_attrs :=
  let attrs := init_dma_attrs
  let attrs := dma_set_attr dma_attr.DMA_ATTR_SKIP_BUFFER_CLEAR attrs
  let attrs :=
    if flags &&& P.EXYNOS_BO_NONCONTIG = 0 then
      dma_set_attr dma_attr.DMA_ATTR_FORCE_CONTIGUOUS attrs
    else attrs
  let attrs :=
    if flags &&& P.EXYNOS_BO_WC ≠ 0 ∨ flags &&& P.EXYNOS_BO_CACHABLE = 0 then
      dma_set_attr dma_attr.DMA_ATTR_SKIP_CPU_SYNC
        (dma_set_attr dma_attr.DMA_ATTR_WRITE_COMBINE attrs)
    else
      dma_set_attr dma_attr.DMA_ATTR_NON_CONSISTENT attrs
  dma_set_attr dma_attr.DMA_ATTR_NO_KERNEL_MAPPING attrs

/-- The loop at lines 122-127: while `i < nr_pages`, do
`pages[i] = phys_to_page(start_addr)`, `start_addr += PAGE_SIZE` in
`dma_addr_t` arithmetic, and `i++` (`i` stays below `nr_pages`, so `i++` never
wraps).  The first argument bounds the number of iterations; the loop is
entered with `i = 0` and makes `nr_pages` of them, so `nr_pages` is enough
(`fill_pages_complete`). -/
def fill_pages (P : platform) (nr_pages : Nat) :
    Nat → Nat → Nat → List Nat → List Nat
  | 0, _, _, pages => pages
  | fuel + 1, i, start_addr, pages =>
    if i < nr_pages then
      fill_pages P nr_pages fuel (i + 1) ((start_addr + PAGE_SIZE P) % WORD_RANGE)
        (pages.set i (P.phys_to_page start_addr))
    else pages

/-- Lines 130-150 of `lowlevel_buffer_allocate`, shared by both branches:
build the scatter table and, when that fails, run the `err_free_attrs` path.
`calls` are the calls made so far. -/
def lowlevel_buffer_allocate_sgt (P : platform) (dev : drm_device)
    (buf : exynos_drm_gem_buf) (heap : page_heap) (env : alloc_env) (nr_pages : Nat)
    (calls : List kcall) : alloc_result :=
  let r := exynos_pages_to_sg P heap buf.pages nr_pages env
  let buf := { buf with sgt := r.1 }
  if IS_ERR buf.sgt then
    let ret := int32 (PTR_ERR buf.sgt)
    let c := kcall.dma_free_attrs buf.size buf.pages buf.dma_addr buf.dma_attrs
    let buf' := { buf with dma_addr := 0 }
    if !is_drm_iommu_supported dev then
      ⟨ret, buf', heap, calls ++ r.2 ++ [c, kcall.drm_free_large buf'.pages]⟩
    else
      ⟨ret, buf', heap, calls ++ r.2 ++ [c]⟩
  else
    ⟨0, buf, heap, calls ++ r.2⟩

/-- The function `lowlevel_buffer_allocate` (lines 54-151). -/
def lowlevel_buffer_allocate (P : platform) (dev : drm_device) (flags : Nat)
    (buf : exynos_drm_gem_buf) (heap : page_heap) (env : alloc_env) : alloc_result :=
  if buf.dma_addr ≠ 0 then
    ⟨0, buf, heap, []⟩
  else
    let buf := { buf with dma_attrs := buffer_attrs P flags }
    let nr_pages := (buf.size >>> P.PAGE_SHIFT) % WORD_RANGE
    if is_drm_iommu_supported dev then
      let c1 := kcall.dma_alloc_attrs buf.size buf.dma_attrs env.dma_alloc_ret
        env.dma_alloc_handle
      let buf := { buf with pages := env.dma_alloc_ret, dma_addr := env.dma_alloc_handle }
      if buf.pages = 0 then
        ⟨-ENOMEM, buf, heap, [c1]⟩
      else
        lowlevel_buffer_allocate_sgt P dev buf heap env nr_pages [c1]
    else
      let c1 := kcall.drm_calloc_large nr_pages env.drm_calloc_large_ret
      let buf := { buf with pages := env.drm_calloc_large_ret }
      if buf.pages = 0 then
        ⟨-ENOMEM, buf, heap, [c1]⟩
      else
        let heap := Function.update heap buf.pages (List.replicate nr_pages 0)
        let c2 := kcall.dma_alloc_attrs buf.size buf.dma_attrs env.dma_alloc_ret
          env.dma_alloc_handle
        let buf := { buf with kvaddr := env.dma_alloc_ret, dma_addr := env.dma_alloc_handle }
        if buf.kvaddr = 0 then
          ⟨-ENOMEM, buf, heap, [c1, c2, kcall.drm_free_large buf.pages]⟩
        else
          let heap := Function.update heap buf.pages
            (fill_pages P nr_pages nr_pages 0 buf.dma_addr (heap buf.pages))
          lowlevel_buffer_allocate_sgt P dev buf heap env nr_pages [c1, c2]

/-- The function `lowlevel_buffer_deallocate` (lines 153-180): the descriptor
afterwards and the calls made. -/
def lowlevel_buffer_deallocate (dev : drm_device) (_flags : Nat)
    (buf : exynos_drm_gem_buf) : exynos_drm_gem_buf × List kcall :=
  if buf.dma_addr = 0 then
    (buf, [])
  else
    let c := [kcall.sg_free_table buf.sgt, kcall.kfree buf.sgt]
    let buf' := { buf with sgt := 0 }
    let c' :=
      if !is_drm_iommu_supported dev then
        [kcall.dma_free_attrs buf'.size buf'.kvaddr buf'.dma_addr buf'.dma_attrs,
         kcall.drm_free_large buf'.pages]
      else
        [kcall.dma_free_attrs buf'.size buf'.pages buf'.dma_addr buf'.dma_attrs]
    ({ buf' with dma_addr := 0 }, c ++ c')

/-- The function `exynos_drm_init_buf` (lines 182-198): `kzalloc_ret` is the
answer of `kzalloc`; the record it returns is zero-filled. -/
def exynos_drm_init_buf (_dev : drm_device) (size : Nat) (kzalloc_ret : Nat) :
    Option exynos_drm_gem_buf :=
  if kzalloc_ret = 0 then none
  else some { kvaddr := 0, dma_addr := 0, dma_attrs := ∅, pages := 0, sgt := 0, size := size }

/-- The function `exynos_drm_alloc_buf` (lines 214-226). -/
def exynos_drm_alloc_buf (P : platform) (dev : drm_device) (buf : exynos_drm_gem_buf)
    (flags : Nat) (heap : page_heap) (env : alloc_env) : alloc_result :=
  let r := lowlevel_buffer_allocate P dev flags buf heap env
  if r.ret < 0 then { r with ret := -ENOMEM } else { r with ret := 0 }

/-- The function `exynos_drm_free_buf` (lines 228-233). -/
def exynos_drm_free_buf (dev : drm_device) (flags : Nat) (buffer : exynos_drm_gem_buf) :
    exynos_drm_gem_buf × List kcall :=
  lowlevel_buffer_deallocate dev flags buffer

/-! ## Sequences of operations -/

/-- One call on a descriptor: allocate, with the answers the services give
during it, or release. -/
inductive buf_op where
  | allocate (flags : Nat) (env : alloc_env)
  | release (flags : Nat)

/-- The descriptor and the page-handle memory after one operation. -/
def buf_step (P : platform) (dev : drm_device) (s : exynos_drm_gem_buf × page_heap) :
    buf_op → exynos_drm_gem_buf × page_heap
  | .allocate flags env =>
    ((exynos_drm_alloc_buf P dev s.1 flags s.2 env).buf,
     (exynos_drm_alloc_buf P dev s.1 flags s.2 env).heap)
  | .release flags => ((exynos_drm_free_buf dev flags s.1).1, s.2)

/-- The descriptor and the page-handle memory after a sequence of operations. -/
def buf_run (P : platform) (dev : drm_device) (s : exynos_drm_gem_buf × page_heap)
    (ops : List buf_op) : exynos_drm_gem_buf × page_heap :=
  ops.foldl (buf_step P dev) s

/-- The descriptor has a scatter table: `sgt` is neither `NULL` nor an error
pointer. -/
def sgt_present (buf : exynos_drm_gem_buf) : Prop := buf.sgt ≠ 0 ∧ IS_ERR buf.sgt = false

/-- The DMA allocator, in the operation, leaves a non-zero device address in
`*dma_handle` exactly when it returns a buffer. -/
def buf_op.dma_sound : buf_op → Prop
  | .allocate _ env => (env.dma_alloc_ret ≠ 0 ↔ env.dma_alloc_handle ≠ 0)
  | .release _ => True

instance (buf : exynos_drm_gem_buf) : Decidable (sgt_present buf) := by
  unfold sgt_present
  infer_instance

instance : (op : buf_op) → Decidable op.dma_sound
  | .allocate _ env =>
    inferInstanceAs (Decidable (env.dma_alloc_ret ≠ 0 ↔ env.dma_alloc_handle ≠ 0))
  | .release _ => inferInstanceAs (Decidable True)

/-! ## Concrete inputs -/

/-- A concrete platform: 4 KiB pages, flag masks `NONCONTIG = 1`,
`CACHABLE = 2`, `WC = 4`, and the page frame number as page handle. -/
def sample_platform : platform :=
  { PAGE_SHIFT := 12, EXYNOS_BO_NONCONTIG := 1, EXYNOS_BO_CACHABLE := 2, EXYNOS_BO_WC := 4,
    phys_to_page := fun phys => phys >>> 12 }

/-- A device whose DMA goes through an IOMMU mapping. -/
def iommu_dev : drm_device := { iommu_mapping := true }

/-- A device without IOMMU mapping. -/
def plain_dev : drm_device := { iommu_mapping := false }

/-- An empty descriptor of two pages, as `exynos_drm_init_buf` makes it. -/
def empty_buf : exynos_drm_gem_buf :=
  { kvaddr := 0, dma_addr := 0, dma_attrs := ∅, pages := 0, sgt := 0, size := 8192 }

/-- A bound descriptor of two pages. -/
def bound_buf : exynos_drm_gem_buf :=
  { kvaddr := 8192, dma_addr := 1073741824,
    dma_attrs := {dma_attr.DMA_ATTR_SKIP_BUFFER_CLEAR, dma_attr.DMA_ATTR_NO_KERNEL_MAPPING},
    pages := 4096, sgt := 12288, size := 8192 }

/-- Page-handle memory with nothing in it. -/
def empty_heap : page_heap := fun _ => []

/-- Every service succeeds: page array at `4096`, buffer at `8192` with device
address `1073741824`, table record at `12288`. -/
def env_ok : alloc_env :=
  { drm_calloc_large_ret := 4096, dma_alloc_ret := 8192, dma_alloc_handle := 1073741824,
    kzalloc_ret := 12288, sg_alloc_table_ret := 0 }

/-- As `env_ok`, with other addresses. -/
def env_ok2 : alloc_env :=
  { drm_calloc_large_ret := 20480, dma_alloc_ret := 24576, dma_alloc_handle := 1073750016,
    kzalloc_ret := 28672, sg_alloc_table_ret := 0 }

/-- As `env_ok`, but `sg_alloc_table_from_pages` returns `-EINVAL` (`-22`). -/
def env_sg_einval : alloc_env := { env_ok with sg_alloc_table_ret := -22 }

/-- The DMA allocator fails: it returns `NULL` and has left the error value
`~0` in `*dma_handle`. -/
def env_dma_fail_handle : alloc_env :=
  { env_ok with dma_alloc_ret := 0, dma_alloc_handle := 4294967295 }

/-- As `env_ok2`, but `sg_alloc_table_from_pages` returns `-EINVAL` (`-22`). -/
def env_sg_einval2 : alloc_env := { env_ok2 with sg_alloc_table_ret := -22 }

/-- Every service asked during one allocate succeeds: the page array (needed
without IOMMU only) and the DMA buffer are allocated, the device address is
non-zero, `kzalloc` returns a real pointer and `sg_alloc_table_from_pages`
returns 0. -/
def services_succeed (dev : drm_device) (env : alloc_env) : Prop :=
  (is_drm_iommu_supported dev = false → env.drm_calloc_large_ret ≠ 0) ∧
  env.dma_alloc_ret ≠ 0 ∧ env.dma_alloc_handle ≠ 0 ∧
  env.kzalloc_ret ≠ 0 ∧ IS_ERR env.kzalloc_ret = false ∧ env.sg_alloc_table_ret = 0

instance (dev : drm_device) (env : alloc_env) : Decidable (services_succeed dev env) := by
  unfold services_succeed
  infer_instance

/-- The DMA allocator succeeds with device address 0. -/
def env_zero_address : alloc_env := { env_ok with dma_alloc_handle := 0 }

/-- A failed allocate, a successful one, then a release. -/
def sample_ops : List buf_op :=
  [buf_op.allocate 0 env_sg_einval, buf_op.allocate 4 env_ok, buf_op.release 0]

/-! ## Auxiliary lemmas -/

theorem exynos_pages_to_sg_fst (P : platform) (heap : page_heap) (pages nr_pages : Nat)
    (env : alloc_env) :
    (exynos_pages_to_sg P heap pages nr_pages env).1 =
      (exynos_pages_to_sg P empty_heap 0 0 env).1 := by
  unfold exynos_pages_to_sg
  by_cases h1 : env.kzalloc_ret = 0
  · simp [h1]
  · by_cases h2 : int32 env.sg_alloc_table_ret = 0 <;> simp [h1, h2]

theorem int32_PTR_ERR_neg (p : Nat) (h : IS_ERR p = true) : int32 (PTR_ERR p) < 0 := by
  unfold IS_ERR WORD_RANGE MAX_ERRNO at h
  unfold int32 PTR_ERR WORD_RANGE
  simp at h
  split_ifs <;> omega

theorem exynos_pages_to_sg_counts (P : platform) (heap : page_heap) (pages nr_pages : Nat)
    (env : alloc_env) :
    (exynos_pages_to_sg P heap pages nr_pages env).2.countP kcall.is_dma_alloc = 0 ∧
    (exynos_pages_to_sg P heap pages nr_pages env).2.countP kcall.is_dma_free = 0 ∧
    (exynos_pages_to_sg P heap pages nr_pages env).2.countP kcall.is_free_large = 0 ∧
    (exynos_pages_to_sg P heap pages nr_pages env).2.countP kcall.is_calloc_large_ok = 0 := by
  unfold exynos_pages_to_sg
  by_cases h1 : env.kzalloc_ret = 0
  · simp [h1, kcall.is_dma_alloc, kcall.is_dma_free, kcall.is_free_large,
      kcall.is_calloc_large_ok]
  · by_cases h2 : int32 env.sg_alloc_table_ret = 0 <;>
      simp [h1, h2, kcall.is_dma_alloc, kcall.is_dma_free, kcall.is_free_large,
        kcall.is_calloc_large_ok]

theorem exynos_drm_alloc_buf_buf (P : platform) (dev : drm_device) (flags : Nat)
    (buf : exynos_drm_gem_buf) (heap : page_heap) (env : alloc_env) :
    (exynos_drm_alloc_buf P dev buf flags heap env).buf =
      (lowlevel_buffer_allocate P dev flags buf heap env).buf := by
  by_cases h : (lowlevel_buffer_allocate P dev flags buf heap env).ret < 0 <;>
    simp [exynos_drm_alloc_buf, h]

theorem exynos_drm_alloc_buf_calls (P : platform) (dev : drm_device) (flags : Nat)
    (buf : exynos_drm_gem_buf) (heap : page_heap) (env : alloc_env) :
    (exynos_drm_alloc_buf P dev buf flags heap env).calls =
      (lowlevel_buffer_allocate P dev flags buf heap env).calls := by
  by_cases h : (lowlevel_buffer_allocate P dev flags buf heap env).ret < 0 <;>
    simp [exynos_drm_alloc_buf, h]

theorem exynos_drm_alloc_buf_heap (P : platform) (dev : drm_device) (flags : Nat)
    (buf : exynos_drm_gem_buf) (heap : page_heap) (env : alloc_env) :
    (exynos_drm_alloc_buf P dev buf flags heap env).heap =
      (lowlevel_buffer_allocate P dev flags buf heap env).heap := by
  by_cases h : (lowlevel_buffer_allocate P dev flags buf heap env).ret < 0 <;>
    simp [exynos_drm_alloc_buf, h]

theorem lowlevel_buffer_allocate_sgt_attrs (P : platform) (dev : drm_device)
    (buf : exynos_drm_gem_buf) (heap : page_heap) (env : alloc_env) (nr_pages : Nat)
    (calls : List kcall) :
    (lowlevel_buffer_allocate_sgt P dev buf heap env nr_pages calls).buf.dma_attrs =
      buf.dma_attrs := by
  unfold lowlevel_buffer_allocate_sgt
  by_cases h : IS_ERR (exynos_pages_to_sg P heap buf.pages nr_pages env).1 = true
  · cases hi : is_drm_iommu_supported dev <;> simp [h, hi]
  · simp [h]

theorem lowlevel_buffer_allocate_sgt_calls (P : platform) (dev : drm_device)
    (buf : exynos_drm_gem_buf) (heap : page_heap) (env : alloc_env) (nr_pages : Nat)
    (calls : List kcall) :
    (lowlevel_buffer_allocate_sgt P dev buf heap env nr_pages calls).calls =
      calls ++ (exynos_pages_to_sg P heap buf.pages nr_pages env).2 ++
        (if IS_ERR (exynos_pages_to_sg P heap buf.pages nr_pages env).1 = true then
          (if is_drm_iommu_supported dev = true then
            [kcall.dma_free_attrs buf.size buf.pages buf.dma_addr buf.dma_attrs]
           else
            [kcall.dma_free_attrs buf.size buf.pages buf.dma_addr buf.dma_attrs,
             kcall.drm_free_large buf.pages])
         else []) := by
  unfold lowlevel_buffer_allocate_sgt
  by_cases h : IS_ERR (exynos_pages_to_sg P heap buf.pages nr_pages env).1 = true
  · cases hi : is_drm_iommu_supported dev <;> simp [h, hi]
  · simp [h]

/-- With an IOMMU, an empty descriptor and a successful DMA allocation,
`lowlevel_buffer_allocate` reaches line 130 in this state. -/
theorem lowlevel_buffer_allocate_iommu (P : platform) (dev : drm_device) (flags : Nat)
    (buf : exynos_drm_gem_buf) (heap : page_heap) (env : alloc_env)
    (hempty : buf.dma_addr = 0) (hi : is_drm_iommu_supported dev = true)
    (hd : env.dma_alloc_ret ≠ 0) :
    lowlevel_buffer_allocate P dev flags buf heap env =
      lowlevel_buffer_allocate_sgt P dev
        { buf with dma_attrs := buffer_attrs P flags, pages := env.dma_alloc_ret,
                   dma_addr := env.dma_alloc_handle }
        heap env ((buf.size >>> P.PAGE_SHIFT) % WORD_RANGE)
        [kcall.dma_alloc_attrs buf.size (buffer_attrs P flags) env.dma_alloc_ret
          env.dma_alloc_handle] := by
  simp [lowlevel_buffer_allocate, hempty, hi, hd]

/-- Without IOMMU, with an empty descriptor and both allocations successful,
`lowlevel_buffer_allocate` reaches line 130 in this state. -/
theorem lowlevel_buffer_allocate_plain (P : platform) (dev : drm_device) (flags : Nat)
    (buf : exynos_drm_gem_buf) (heap : page_heap) (env : alloc_env)
    (hempty : buf.dma_addr = 0) (hi : is_drm_iommu_supported dev = false)
    (hc : env.drm_calloc_large_ret ≠ 0) (hd : env.dma_alloc_ret ≠ 0) :
    lowlevel_buffer_allocate P dev flags buf heap env =
      lowlevel_buffer_allocate_sgt P dev
        { buf with dma_attrs := buffer_attrs P flags, pages := env.drm_calloc_large_ret,
                   kvaddr := env.dma_alloc_ret, dma_addr := env.dma_alloc_handle }
        (Function.update heap env.drm_calloc_large_ret
          (fill_pages P ((buf.size >>> P.PAGE_SHIFT) % WORD_RANGE)
            ((buf.size >>> P.PAGE_SHIFT) % WORD_RANGE) 0 env.dma_alloc_handle
            (List.replicate ((buf.size >>> P.PAGE_SHIFT) % WORD_RANGE) 0)))
        env ((buf.size >>> P.PAGE_SHIFT) % WORD_RANGE)
        [kcall.drm_calloc_large ((buf.size >>> P.PAGE_SHIFT) % WORD_RANGE)
           env.drm_calloc_large_ret,
         kcall.dma_alloc_attrs buf.size (buffer_attrs P flags) env.dma_alloc_ret
           env.dma_alloc_handle] := by
  simp [lowlevel_buffer_allocate, hempty, hi, hc, hd]

/-! ## Allocate on a bound descriptor, release on an empty one -/

/-- C1: on a descriptor whose `dma_addr` is already non-zero,
`exynos_drm_alloc_buf` (and `lowlevel_buffer_allocate` under it) returns 0,
calls no external service at all, and leaves the descriptor (every field) and
the page-handle memory as they were, whatever the flags, the device and the
answers the services would have given. -/
theorem alloc_on_bound_is_noop (P : platform) (dev : drm_device) (flags : Nat)
    (buf : exynos_drm_gem_buf) (heap : page_heap) (env : alloc_env)
    (hbound : buf.dma_addr ≠ 0) :
    (exynos_drm_alloc_buf P dev buf flags heap env).ret = 0 ∧
    (lowlevel_buffer_allocate P dev flags buf heap env).ret = 0 ∧
    (exynos_drm_alloc_buf P dev buf flags heap env).calls = [] ∧
    (exynos_drm_alloc_buf P dev buf flags heap env).buf = buf ∧
    (exynos_drm_alloc_buf P dev buf flags heap env).heap = heap := by
  simp [exynos_drm_alloc_buf, lowlevel_buffer_allocate, hbound]

theorem alloc_on_bound_is_noop_witness :
    bound_buf.dma_addr ≠ 0 ∧
    ((exynos_drm_alloc_buf sample_platform plain_dev bound_buf 5 empty_heap env_ok).ret = 0 ∧
     (lowlevel_buffer_allocate sample_platform plain_dev 5 bound_buf empty_heap env_ok).ret = 0 ∧
     (exynos_drm_alloc_buf sample_platform plain_dev bound_buf 5 empty_heap env_ok).calls = [] ∧
     (exynos_drm_alloc_buf sample_platform plain_dev bound_buf 5 empty_heap env_ok).buf
        = bound_buf ∧
     (exynos_drm_alloc_buf sample_platform plain_dev bound_buf 5 empty_heap env_ok).heap
        = empty_heap) :=
  ⟨by decide, alloc_on_bound_is_noop sample_platform plain_dev 5 bound_buf empty_heap env_ok
    (by decide)⟩

/-- C2: on a descriptor with `dma_addr == 0`, `exynos_drm_free_buf` makes no
call and returns the descriptor unchanged.  Hence, on a bound descriptor, a
second release right after the first is such a no-op, and the two releases
together call `sg_free_table`, `kfree` and `dma_free_attrs` once each, and
`drm_free_large` once without IOMMU and never with it. -/
theorem free_on_empty_is_noop (dev : drm_device) (flags flags' : Nat)
    (buf : exynos_drm_gem_buf) :
    (buf.dma_addr = 0 → exynos_drm_free_buf dev flags buf = (buf, [])) ∧
    (buf.dma_addr ≠ 0 →
      exynos_drm_free_buf dev flags' (exynos_drm_free_buf dev flags buf).1
        = ((exynos_drm_free_buf dev flags buf).1, []) ∧
      ((exynos_drm_free_buf dev flags buf).2 ++
        (exynos_drm_free_buf dev flags' (exynos_drm_free_buf dev flags buf).1).2).countP
          kcall.is_sg_free = 1 ∧
      ((exynos_drm_free_buf dev flags buf).2 ++
        (exynos_drm_free_buf dev flags' (exynos_drm_free_buf dev flags buf).1).2).countP
          kcall.is_kfree = 1 ∧
      ((exynos_drm_free_buf dev flags buf).2 ++
        (exynos_drm_free_buf dev flags' (exynos_drm_free_buf dev flags buf).1).2).countP
          kcall.is_dma_free = 1 ∧
      ((exynos_drm_free_buf dev flags buf).2 ++
        (exynos_drm_free_buf dev flags' (exynos_drm_free_buf dev flags buf).1).2).countP
          kcall.is_free_large = if is_drm_iommu_supported dev then 0 else 1) := by
  constructor
  · intro h
    simp [exynos_drm_free_buf, lowlevel_buffer_deallocate, h]
  · intro h
    cases hi : dev.iommu_mapping <;>
      simp [exynos_drm_free_buf, lowlevel_buffer_deallocate, h, is_drm_iommu_supported, hi,
        kcall.is_sg_free, kcall.is_kfree, kcall.is_dma_free, kcall.is_free_large]

theorem free_on_empty_is_noop_witness :
    empty_buf.dma_addr = 0 ∧ bound_buf.dma_addr ≠ 0 ∧
    exynos_drm_free_buf plain_dev 0 empty_buf = (empty_buf, []) ∧
    exynos_drm_free_buf plain_dev 0 (exynos_drm_free_buf plain_dev 0 bound_buf).1
      = ((exynos_drm_free_buf plain_dev 0 bound_buf).1, []) :=
  ⟨by decide, by decide,
   (free_on_empty_is_noop plain_dev 0 0 empty_buf).1 (by decide),
   ((free_on_empty_is_noop plain_dev 0 0 bound_buf).2 (by decide)).1⟩

/-! ## Failure paths of allocate -/

/-- C3: on an empty descriptor, when the DMA allocation succeeds (and, without
IOMMU, the page array before it) and `exynos_pages_to_sg` then returns an error
pointer, `lowlevel_buffer_allocate` returns a negative code and
`exynos_drm_alloc_buf` returns `-ENOMEM`; the trace holds exactly one
`dma_alloc_attrs` and exactly one `dma_free_attrs`; without IOMMU it holds
exactly one `drm_free_large`, of the page array; and `dma_addr` is 0 again. -/
theorem alloc_rollback_on_sg_failure (P : platform) (dev : drm_device) (flags : Nat)
    (buf : exynos_drm_gem_buf) (heap : page_heap) (env : alloc_env)
    (hempty : buf.dma_addr = 0)
    (hcalloc : is_drm_iommu_supported dev = false → env.drm_calloc_large_ret ≠ 0)
    (hdma : env.dma_alloc_ret ≠ 0)
    (hsg : IS_ERR (exynos_pages_to_sg P empty_heap 0 0 env).1 = true) :
    (lowlevel_buffer_allocate P dev flags buf heap env).ret < 0 ∧
    (exynos_drm_alloc_buf P dev buf flags heap env).ret = -ENOMEM ∧
    (exynos_drm_alloc_buf P dev buf flags heap env).calls.countP kcall.is_dma_alloc = 1 ∧
    (exynos_drm_alloc_buf P dev buf flags heap env).calls.countP kcall.is_dma_free = 1 ∧
    (is_drm_iommu_supported dev = false →
      (exynos_drm_alloc_buf P dev buf flags heap env).calls.countP kcall.is_free_large = 1 ∧
      kcall.drm_free_large env.drm_calloc_large_ret ∈
        (exynos_drm_alloc_buf P dev buf flags heap env).calls) ∧
    (exynos_drm_alloc_buf P dev buf flags heap env).buf.dma_addr = 0 := by
  have hneg := int32_PTR_ERR_neg _ hsg
  have hall : ∀ h p n, IS_ERR (exynos_pages_to_sg P h p n env).1 = true := by
    intro h p n; rw [exynos_pages_to_sg_fst]; exact hsg
  have hnegall : ∀ h p n, int32 (PTR_ERR (exynos_pages_to_sg P h p n env).1) < 0 := by
    intro h p n; rw [exynos_pages_to_sg_fst]; exact hneg
  have hcnt := exynos_pages_to_sg_counts P
  cases hi : is_drm_iommu_supported dev
  · have hc := hcalloc hi
    simp [exynos_drm_alloc_buf, lowlevel_buffer_allocate, lowlevel_buffer_allocate_sgt, hempty,
      hi, hc, hdma, hall, hnegall, hcnt, List.countP_append, List.countP_cons,
      kcall.is_dma_alloc, kcall.is_dma_free, kcall.is_free_large]
  · simp [exynos_drm_alloc_buf, lowlevel_buffer_allocate, lowlevel_buffer_allocate_sgt, hempty,
      hi, hdma, hall, hnegall, hcnt, List.countP_append, List.countP_cons,
      kcall.is_dma_alloc, kcall.is_dma_free, kcall.is_free_large]

theorem alloc_rollback_on_sg_failure_witness :
    (lowlevel_buffer_allocate sample_platform plain_dev 0 empty_buf empty_heap
      env_sg_einval).ret < 0 ∧
    (exynos_drm_alloc_buf sample_platform plain_dev empty_buf 0 empty_heap
      env_sg_einval).calls.countP kcall.is_dma_free = 1 ∧
    (exynos_drm_alloc_buf sample_platform plain_dev empty_buf 0 empty_heap
      env_sg_einval).buf.dma_addr = 0 :=
  have h := alloc_rollback_on_sg_failure sample_platform plain_dev 0 empty_buf empty_heap
    env_sg_einval (by decide) (by decide) (by decide) (by decide)
  ⟨h.1, h.2.2.2.1, h.2.2.2.2.2⟩

/-- What allocate does on an empty descriptor when, without IOMMU, the
page-array allocation fails, or when `dma_alloc_attrs` returns `NULL`: it
returns `-ENOMEM`, does not enter the table builder, passes nothing to
`dma_free_attrs`, and frees the page array if it had got one.  The field
`dma_addr` is not written by the code on these paths: it holds what
`dma_alloc_attrs` left in `*dma_handle`, or 0 if that was never called. -/
theorem alloc_failure_outcome (P : platform) (dev : drm_device) (flags : Nat)
    (buf : exynos_drm_gem_buf) (heap : page_heap) (env : alloc_env)
    (hempty : buf.dma_addr = 0)
    (hfail : (is_drm_iommu_supported dev = false ∧ env.drm_calloc_large_ret = 0) ∨
      env.dma_alloc_ret = 0) :
    (lowlevel_buffer_allocate P dev flags buf heap env).ret = -ENOMEM ∧
    (exynos_drm_alloc_buf P dev buf flags heap env).ret = -ENOMEM ∧
    (exynos_drm_alloc_buf P dev buf flags heap env).buf.dma_addr =
      (if is_drm_iommu_supported dev = false ∧ env.drm_calloc_large_ret = 0 then 0
       else env.dma_alloc_handle) ∧
    (exynos_drm_alloc_buf P dev buf flags heap env).calls.countP kcall.is_kzalloc = 0 ∧
    (exynos_drm_alloc_buf P dev buf flags heap env).calls.countP kcall.is_sg_alloc = 0 ∧
    (exynos_drm_alloc_buf P dev buf flags heap env).calls.countP kcall.is_dma_free = 0 ∧
    (exynos_drm_alloc_buf P dev buf flags heap env).calls.countP kcall.is_free_large =
      (exynos_drm_alloc_buf P dev buf flags heap env).calls.countP
        kcall.is_calloc_large_ok := by
  cases hi : is_drm_iommu_supported dev
  · by_cases hc : env.drm_calloc_large_ret = 0
    · simp [exynos_drm_alloc_buf, lowlevel_buffer_allocate, hempty, hi, hc, ENOMEM,
        kcall.is_kzalloc, kcall.is_sg_alloc, kcall.is_dma_free, kcall.is_free_large,
        kcall.is_calloc_large_ok]
    · have hd : env.dma_alloc_ret = 0 := by
        rcases hfail with h | h
        · exact absurd h.2 hc
        · exact h
      simp [exynos_drm_alloc_buf, lowlevel_buffer_allocate, hempty, hi, hc, hd,
        ENOMEM, kcall.is_kzalloc, kcall.is_sg_alloc, kcall.is_dma_free, kcall.is_free_large,
        kcall.is_calloc_large_ok]
  · have hd : env.dma_alloc_ret = 0 := by
      rcases hfail with h | h
      · rw [hi] at h; exact absurd h.1 (by decide)
      · exact h
    simp [exynos_drm_alloc_buf, lowlevel_buffer_allocate, hempty, hi, hd,
      ENOMEM, kcall.is_kzalloc, kcall.is_sg_alloc, kcall.is_dma_free, kcall.is_free_large,
      kcall.is_calloc_large_ok]

/-- C4 fails on the code: with an IOMMU device and an empty descriptor, let
`dma_alloc_attrs` return `NULL` after storing `~0` through its `dma_handle`
argument, which is `&buf->dma_addr`.  Allocate returns `-ENOMEM` after that one
call, and `dma_addr` is `0xffffffff` on return, not 0: lines 99-102 do not
reset it, as line 145 does on the other failure path.  The descriptor then
counts as bound: a further allocate returns 0 without calling anything, and a
release passes the `NULL` table and page pointers to `sg_free_table`, `kfree`
and `dma_free_attrs`. -/
theorem alloc_dma_failure_keeps_stored_handle :
    empty_buf.dma_addr = 0 ∧ env_dma_fail_handle.dma_alloc_ret = 0 ∧
    (exynos_drm_alloc_buf sample_platform iommu_dev empty_buf 0 empty_heap
      env_dma_fail_handle).ret = -ENOMEM ∧
    (exynos_drm_alloc_buf sample_platform iommu_dev empty_buf 0 empty_heap
      env_dma_fail_handle).calls =
      [kcall.dma_alloc_attrs 8192 (buffer_attrs sample_platform 0) 0 4294967295] ∧
    (exynos_drm_alloc_buf sample_platform iommu_dev empty_buf 0 empty_heap
      env_dma_fail_handle).buf.dma_addr = 4294967295 ∧
    (exynos_drm_alloc_buf sample_platform iommu_dev empty_buf 0 empty_heap
      env_dma_fail_handle).buf.dma_addr ≠ 0 ∧
    (exynos_drm_alloc_buf sample_platform iommu_dev
      (exynos_drm_alloc_buf sample_platform iommu_dev empty_buf 0 empty_heap
        env_dma_fail_handle).buf 0 empty_heap env_ok).ret = 0 ∧
    (exynos_drm_alloc_buf sample_platform iommu_dev
      (exynos_drm_alloc_buf sample_platform iommu_dev empty_buf 0 empty_heap
        env_dma_fail_handle).buf 0 empty_heap env_ok).calls = [] ∧
    (exynos_drm_free_buf iommu_dev 0
      (exynos_drm_alloc_buf sample_platform iommu_dev empty_buf 0 empty_heap
        env_dma_fail_handle).buf).2 =
      [kcall.sg_free_table 0, kcall.kfree 0,
       kcall.dma_free_attrs 8192 0 4294967295 (buffer_attrs sample_platform 0)] := by
  decide

/-! ## Attributes and result codes -/

/-- C6: after allocate on an empty descriptor, the attribute set of the
descriptor is `buffer_attrs P flags`, whatever the device, the previous
`dma_attrs` and the answers of the services, and every `dma_alloc_attrs` call
made is passed exactly that set.  Its members are: `NO_KERNEL_MAPPING` and
`SKIP_BUFFER_CLEAR` always; `FORCE_CONTIGUOUS` iff `flags & EXYNOS_BO_NONCONTIG`
is 0; `WRITE_COMBINE` and `SKIP_CPU_SYNC` iff `flags & EXYNOS_BO_WC` is non-zero
or `flags & EXYNOS_BO_CACHABLE` is 0; `NON_CONSISTENT` iff not. -/
theorem alloc_attrs_from_flags (P : platform) (dev : drm_device) (flags : Nat)
    (buf : exynos_drm_gem_buf) (heap : page_heap) (env : alloc_env)
    (hempty : buf.dma_addr = 0) :
    (exynos_drm_alloc_buf P dev buf flags heap env).buf.dma_attrs = buffer_attrs P flags ∧
    (∀ size attrs ret handle, kcall.dma_alloc_attrs size attrs ret handle ∈
        (exynos_drm_alloc_buf P dev buf flags heap env).calls → attrs = buffer_attrs P flags) ∧
    (∀ a : dma_attr, a ∈ buffer_attrs P flags ↔
      (a = dma_attr.DMA_ATTR_NO_KERNEL_MAPPING ∨
       a = dma_attr.DMA_ATTR_SKIP_BUFFER_CLEAR ∨
       (a = dma_attr.DMA_ATTR_FORCE_CONTIGUOUS ∧ flags &&& P.EXYNOS_BO_NONCONTIG = 0) ∨
       ((a = dma_attr.DMA_ATTR_WRITE_COMBINE ∨ a = dma_attr.DMA_ATTR_SKIP_CPU_SYNC) ∧
          (flags &&& P.EXYNOS_BO_WC ≠ 0 ∨ flags &&& P.EXYNOS_BO_CACHABLE = 0)) ∨
       (a = dma_attr.DMA_ATTR_NON_CONSISTENT ∧
          ¬ (flags &&& P.EXYNOS_BO_WC ≠ 0 ∨ flags &&& P.EXYNOS_BO_CACHABLE = 0)))) := by
  refine ⟨?_, ?_, ?_⟩
  · rw [exynos_drm_alloc_buf_buf]
    cases hi : is_drm_iommu_supported dev
    · by_cases hc : env.drm_calloc_large_ret = 0
      · simp [lowlevel_buffer_allocate, hempty, hi, hc]
      · by_cases hd : env.dma_alloc_ret = 0
        · simp [lowlevel_buffer_allocate, hempty, hi, hc, hd]
        · simp [lowlevel_buffer_allocate, hempty, hi, hc, hd, lowlevel_buffer_allocate_sgt_attrs]
    · by_cases hd : env.dma_alloc_ret = 0
      · simp [lowlevel_buffer_allocate, hempty, hi, hd]
      · simp [lowlevel_buffer_allocate, hempty, hi, hd, lowlevel_buffer_allocate_sgt_attrs]
  · intro size attrs ret handle
    rw [exynos_drm_alloc_buf_calls]
    have hsg : ∀ h p n, kcall.dma_alloc_attrs size attrs ret handle ∉
        (exynos_pages_to_sg P h p n env).2 := by
      intro h p n
      unfold exynos_pages_to_sg
      by_cases h1 : env.kzalloc_ret = 0
      · simp [h1]
      · by_cases h2 : int32 env.sg_alloc_table_ret = 0 <;> simp [h1, h2]
    cases hi : is_drm_iommu_supported dev
    · by_cases hc : env.drm_calloc_large_ret = 0
      · simp [lowlevel_buffer_allocate, hempty, hi, hc]
      · by_cases hd : env.dma_alloc_ret = 0
        · simp [lowlevel_buffer_allocate, hempty, hi, hc, hd]
          intro _ h _ _; exact h
        · rw [lowlevel_buffer_allocate_plain P dev flags buf heap env hempty hi hc hd,
            lowlevel_buffer_allocate_sgt_calls]
          simp only [List.mem_append, List.mem_cons, List.mem_singleton, hsg, or_false]
          intro h; rcases h with h | h
          · simp at h; exact h.2.1
          · split_ifs at h <;> simp at h
    · by_cases hd : env.dma_alloc_ret = 0
      · simp [lowlevel_buffer_allocate, hempty, hi, hd]
        intro _ h _ _; exact h
      · rw [lowlevel_buffer_allocate_iommu P dev flags buf heap env hempty hi hd,
          lowlevel_buffer_allocate_sgt_calls]
        simp only [List.mem_append, List.mem_cons, List.mem_singleton, hsg, or_false]
        intro h; rcases h with h | h
        · simp at h; exact h.2.1
        · split_ifs at h <;> simp at h
  · intro a
    unfold buffer_attrs dma_set_attr init_dma_attrs
    by_cases h1 : flags &&& P.EXYNOS_BO_NONCONTIG = 0 <;>
    by_cases h2 : flags &&& P.EXYNOS_BO_WC = 0 <;>
    by_cases h3 : flags &&& P.EXYNOS_BO_CACHABLE = 0 <;>
    cases a <;> simp [h1, h2, h3]

theorem alloc_attrs_from_flags_witness :
    (exynos_drm_alloc_buf sample_platform iommu_dev empty_buf 2 empty_heap env_ok).buf.dma_attrs
      = {dma_attr.DMA_ATTR_SKIP_BUFFER_CLEAR, dma_attr.DMA_ATTR_FORCE_CONTIGUOUS,
         dma_attr.DMA_ATTR_NON_CONSISTENT, dma_attr.DMA_ATTR_NO_KERNEL_MAPPING} :=
  (alloc_attrs_from_flags sample_platform iommu_dev 2 empty_buf empty_heap env_ok
    (by decide)).1.trans (by decide)

/-- C7 as stated fails: without IOMMU, on an empty descriptor, let every
allocation succeed and `sg_alloc_table_from_pages` return `-EINVAL` (`-22`).
`lowlevel_buffer_allocate` returns `-22`, but `exynos_drm_alloc_buf` returns
`-ENOMEM` (`-12`): the code at the public interface is the out-of-memory code
although no memory allocation step failed and the builder's error is not
`-ENOMEM`. -/
theorem alloc_buf_hides_builder_error :
    env_sg_einval.drm_calloc_large_ret ≠ 0 ∧ env_sg_einval.dma_alloc_ret ≠ 0 ∧
    env_sg_einval.kzalloc_ret ≠ 0 ∧ env_sg_einval.sg_alloc_table_ret = -22 ∧
    (lowlevel_buffer_allocate sample_platform plain_dev 0 empty_buf empty_heap
      env_sg_einval).ret = -22 ∧
    (exynos_drm_alloc_buf sample_platform plain_dev empty_buf 0 empty_heap
      env_sg_einval).ret = -ENOMEM ∧
    (exynos_drm_alloc_buf sample_platform plain_dev empty_buf 0 empty_heap
      env_sg_einval).ret ≠ -22 := by
  decide

/-- C7, amended: `exynos_drm_alloc_buf` returns 0 or `-ENOMEM` and nothing
else.  On an empty descriptor, when the allocations succeed and
`sg_alloc_table_from_pages` fails with an errno `e` (`-4095 ≤ e ≤ -1`),
`lowlevel_buffer_allocate` returns `e`, and `exynos_drm_alloc_buf` returns
`-ENOMEM` whatever `e` is: the builder's code does not reach the caller. -/
theorem alloc_buf_reports_only_enomem (P : platform) (dev : drm_device) (flags : Nat)
    (buf : exynos_drm_gem_buf) (heap : page_heap) (env : alloc_env) :
    ((exynos_drm_alloc_buf P dev buf flags heap env).ret = 0 ∨
      (exynos_drm_alloc_buf P dev buf flags heap env).ret = -ENOMEM) ∧
    (buf.dma_addr = 0 →
      (is_drm_iommu_supported dev = false → env.drm_calloc_large_ret ≠ 0) →
      env.dma_alloc_ret ≠ 0 → env.kzalloc_ret ≠ 0 →
      -4095 ≤ env.sg_alloc_table_ret → env.sg_alloc_table_ret ≤ -1 →
      (lowlevel_buffer_allocate P dev flags buf heap env).ret = env.sg_alloc_table_ret ∧
      (exynos_drm_alloc_buf P dev buf flags heap env).ret = -ENOMEM) := by
  constructor
  · by_cases h : (lowlevel_buffer_allocate P dev flags buf heap env).ret < 0 <;>
      simp [exynos_drm_alloc_buf, h]
  · intro hempty hcalloc hdma hkz hlo hhi
    have h32 : int32 env.sg_alloc_table_ret = env.sg_alloc_table_ret := by
      unfold int32; omega
    have hne : env.sg_alloc_table_ret ≠ 0 := by omega
    have hp : ∀ h p n, (exynos_pages_to_sg P h p n env).1 = ERR_PTR env.sg_alloc_table_ret := by
      intro h p n
      simp [exynos_pages_to_sg, hkz, h32, hne]
    have hmod : ERR_PTR env.sg_alloc_table_ret % WORD_RANGE
        = (env.sg_alloc_table_ret + 4294967296).toNat := by
      unfold ERR_PTR WORD_RANGE; omega
    have herr : IS_ERR (ERR_PTR env.sg_alloc_table_ret) = true := by
      unfold IS_ERR
      rw [hmod]
      unfold WORD_RANGE MAX_ERRNO
      simp only [decide_eq_true_eq]
      omega
    have hback : int32 (PTR_ERR (ERR_PTR env.sg_alloc_table_ret)) = env.sg_alloc_table_ret := by
      unfold PTR_ERR
      rw [hmod]
      unfold int32
      split_ifs <;> omega
    have hneg : env.sg_alloc_table_ret < 0 := by omega
    cases hi : is_drm_iommu_supported dev
    · have hc := hcalloc hi
      simp [exynos_drm_alloc_buf, lowlevel_buffer_allocate, lowlevel_buffer_allocate_sgt, hempty,
        hi, hc, hdma, hp, herr, hback, hneg]
    · simp [exynos_drm_alloc_buf, lowlevel_buffer_allocate, lowlevel_buffer_allocate_sgt, hempty,
        hi, hdma, hp, herr, hback, hneg]

theorem alloc_buf_reports_only_enomem_witness :
    (lowlevel_buffer_allocate sample_platform iommu_dev 0 empty_buf empty_heap
      env_sg_einval).ret = -22 ∧
    (exynos_drm_alloc_buf sample_platform iommu_dev empty_buf 0 empty_heap
      env_sg_einval).ret = -ENOMEM :=
  (alloc_buf_reports_only_enomem sample_platform iommu_dev 0 empty_buf empty_heap
    env_sg_einval).2 (by decide) (by decide) (by decide) (by decide) (by decide) (by decide)

/-! ## Arguments of `dma_free_attrs` -/

/-- C10 fails on the rollback path without IOMMU.  On an empty descriptor, let
`drm_calloc_large` return the page array `20480`, `dma_alloc_attrs` return the
CPU address `24576` with device address `1073750016`, and the table builder
fail.  The rollback passes the page array `20480` to `dma_free_attrs` as CPU
address, not the `24576` that `dma_alloc_attrs` returned; when the builder
succeeds instead, release passes `24576` for the same allocation. -/
theorem rollback_frees_with_page_array :
    (exynos_drm_alloc_buf sample_platform plain_dev empty_buf 0 empty_heap
        env_sg_einval2).calls.filter (fun c => c.is_dma_alloc || c.is_dma_free) =
      [kcall.dma_alloc_attrs 8192 (buffer_attrs sample_platform 0) 24576 1073750016,
       kcall.dma_free_attrs 8192 20480 1073750016 (buffer_attrs sample_platform 0)] ∧
    (exynos_drm_free_buf plain_dev 0
        (exynos_drm_alloc_buf sample_platform plain_dev empty_buf 0 empty_heap
          env_ok2).buf).2.filter kcall.is_dma_free =
      [kcall.dma_free_attrs 8192 24576 1073750016 (buffer_attrs sample_platform 0)] := by
  decide

/-! ## Life cycle -/

theorem lowlevel_buffer_allocate_sgt_ok (P : platform) (dev : drm_device)
    (buf : exynos_drm_gem_buf) (heap : page_heap) (env : alloc_env) (nr_pages : Nat)
    (calls : List kcall) (hkz : env.kzalloc_ret ≠ 0) (hptr : IS_ERR env.kzalloc_ret = false)
    (hsg : env.sg_alloc_table_ret = 0) :
    lowlevel_buffer_allocate_sgt P dev buf heap env nr_pages calls =
      ⟨0, { buf with sgt := env.kzalloc_ret }, heap,
        calls ++ [kcall.kzalloc env.kzalloc_ret,
          kcall.sg_alloc_table_from_pages env.kzalloc_ret buf.pages (heap buf.pages) nr_pages 0
            ((PAGE_SIZE P * nr_pages) % WORD_RANGE) 0]⟩ := by
  simp [lowlevel_buffer_allocate_sgt, exynos_pages_to_sg, hkz, hptr, hsg, int32]

/-- The outcome of allocate on an empty descriptor when every service succeeds. -/
theorem exynos_drm_alloc_buf_ok (P : platform) (dev : drm_device) (flags : Nat)
    (buf : exynos_drm_gem_buf) (heap : page_heap) (env : alloc_env)
    (hempty : buf.dma_addr = 0) (h : services_succeed dev env) :
    (exynos_drm_alloc_buf P dev buf flags heap env).ret = 0 ∧
    (exynos_drm_alloc_buf P dev buf flags heap env).buf =
      { kvaddr := if is_drm_iommu_supported dev then buf.kvaddr else env.dma_alloc_ret,
        dma_addr := env.dma_alloc_handle,
        dma_attrs := buffer_attrs P flags,
        pages := if is_drm_iommu_supported dev then env.dma_alloc_ret
                 else env.drm_calloc_large_ret,
        sgt := env.kzalloc_ret,
        size := buf.size } ∧
    (exynos_drm_alloc_buf P dev buf flags heap env).calls.countP kcall.is_free = 0 ∧
    (exynos_drm_alloc_buf P dev buf flags heap env).calls.countP kcall.is_dma_alloc = 1 ∧
    (exynos_drm_alloc_buf P dev buf flags heap env).calls.countP kcall.is_kzalloc = 1 ∧
    (exynos_drm_alloc_buf P dev buf flags heap env).calls.countP kcall.is_sg_alloc = 1 ∧
    (exynos_drm_alloc_buf P dev buf flags heap env).calls.countP kcall.is_calloc_large =
      (if is_drm_iommu_supported dev then 0 else 1) ∧
    kcall.dma_alloc_attrs buf.size (buffer_attrs P flags) env.dma_alloc_ret
        env.dma_alloc_handle ∈ (exynos_drm_alloc_buf P dev buf flags heap env).calls := by
  obtain ⟨hc, hd, hh, hk, hp, hs⟩ := h
  cases hi : is_drm_iommu_supported dev
  · have e := (lowlevel_buffer_allocate_plain P dev flags buf heap env hempty hi (hc hi) hd).trans
      (lowlevel_buffer_allocate_sgt_ok P dev _ _ env _ _ hk hp hs)
    simp [exynos_drm_alloc_buf, e, kcall.is_free, kcall.is_dma_free, kcall.is_free_large,
      kcall.is_kfree, kcall.is_sg_free, kcall.is_dma_alloc, kcall.is_kzalloc, kcall.is_sg_alloc,
      kcall.is_calloc_large]
  · have e := (lowlevel_buffer_allocate_iommu P dev flags buf heap env hempty hi hd).trans
      (lowlevel_buffer_allocate_sgt_ok P dev _ _ env _ _ hk hp hs)
    simp [exynos_drm_alloc_buf, e, kcall.is_free, kcall.is_dma_free, kcall.is_free_large,
      kcall.is_kfree, kcall.is_sg_free, kcall.is_dma_alloc, kcall.is_kzalloc, kcall.is_sg_alloc,
      kcall.is_calloc_large]

/-- C8: from an empty descriptor, when every service succeeds and the device
address is non-zero, allocate returns 0 and binds the descriptor; release then
leaves `dma_addr == 0`, `sgt == NULL` and `size` unchanged, and its calls are
exactly `sg_free_table` and `kfree` of the table, `dma_free_attrs` of the
buffer with the size, CPU address, device address and attributes of its
allocation, and, without IOMMU, `drm_free_large` of the page array, each once;
allocate itself frees nothing and acquires each of these once.  A further
allocate makes one new `dma_alloc_attrs` call, returns 0, and ends with the new
non-zero device address and a table pointer that is neither `NULL` nor an
error pointer. -/
theorem alloc_free_alloc_lifecycle (P : platform) (dev : drm_device)
    (flags flags' flags'' : Nat) (buf : exynos_drm_gem_buf) (heap : page_heap)
    (env1 env2 : alloc_env) (a1 a2 : alloc_result) (f : exynos_drm_gem_buf × List kcall)
    (hempty : buf.dma_addr = 0)
    (h1 : services_succeed dev env1) (h2 : services_succeed dev env2)
    (ha1 : a1 = exynos_drm_alloc_buf P dev buf flags heap env1)
    (hf : f = exynos_drm_free_buf dev flags' a1.buf)
    (ha2 : a2 = exynos_drm_alloc_buf P dev f.1 flags'' a1.heap env2) :
    (a1.ret = 0 ∧ a1.buf.dma_addr = env1.dma_alloc_handle ∧ a1.buf.dma_addr ≠ 0 ∧
      a1.buf.sgt = env1.kzalloc_ret ∧
      a1.calls.countP kcall.is_free = 0 ∧
      a1.calls.countP kcall.is_dma_alloc = 1 ∧
      a1.calls.countP kcall.is_kzalloc = 1 ∧
      a1.calls.countP kcall.is_sg_alloc = 1 ∧
      a1.calls.countP kcall.is_calloc_large = (if is_drm_iommu_supported dev then 0 else 1)) ∧
    (f.1.dma_addr = 0 ∧ f.1.sgt = 0 ∧ f.1.size = buf.size ∧
      f.2 = [kcall.sg_free_table env1.kzalloc_ret, kcall.kfree env1.kzalloc_ret,
             kcall.dma_free_attrs buf.size env1.dma_alloc_ret env1.dma_alloc_handle
               (buffer_attrs P flags)] ++
            (if is_drm_iommu_supported dev then []
             else [kcall.drm_free_large env1.drm_calloc_large_ret])) ∧
    (a2.ret = 0 ∧
      kcall.dma_alloc_attrs buf.size (buffer_attrs P flags'') env2.dma_alloc_ret
        env2.dma_alloc_handle ∈ a2.calls ∧
      a2.calls.countP kcall.is_dma_alloc = 1 ∧
      a2.buf.dma_addr = env2.dma_alloc_handle ∧ a2.buf.dma_addr ≠ 0 ∧
      a2.buf.sgt = env2.kzalloc_ret ∧ a2.buf.sgt ≠ 0 ∧ IS_ERR a2.buf.sgt = false ∧
      a2.buf.size = buf.size) := by
  have hb1 := (exynos_drm_alloc_buf_ok P dev flags buf heap env1 hempty h1)
  rw [← ha1] at hb1
  obtain ⟨hr1, hbuf1, hfree1, hda1, hkz1, hsa1, hcl1, _⟩ := hb1
  obtain ⟨_, _, hh1, _, _, _⟩ := h1
  have hf1 : f.1 = { a1.buf with sgt := 0, dma_addr := 0 } := by
    rw [hf, hbuf1]
    simp [exynos_drm_free_buf, lowlevel_buffer_deallocate, hh1]
  have hf2 : f.2 = [kcall.sg_free_table env1.kzalloc_ret, kcall.kfree env1.kzalloc_ret,
             kcall.dma_free_attrs buf.size env1.dma_alloc_ret env1.dma_alloc_handle
               (buffer_attrs P flags)] ++
            (if is_drm_iommu_supported dev then []
             else [kcall.drm_free_large env1.drm_calloc_large_ret]) := by
    rw [hf, hbuf1]
    cases hi : is_drm_iommu_supported dev <;>
      simp [exynos_drm_free_buf, lowlevel_buffer_deallocate, hh1, hi]
  have hfe : f.1.dma_addr = 0 := by rw [hf1]
  have hfs : f.1.size = buf.size := by rw [hf1, hbuf1]
  have hb2 := (exynos_drm_alloc_buf_ok P dev flags'' f.1 a1.heap env2 hfe h2)
  rw [← ha2, hfs] at hb2
  obtain ⟨hr2, hbuf2, _, hda2, _, _, _, hmem2⟩ := hb2
  obtain ⟨_, _, hh2, hk2, hp2, _⟩ := h2
  refine ⟨⟨hr1, ?_, ?_, ?_, hfree1, hda1, hkz1, hsa1, hcl1⟩, ⟨hfe, ?_, hfs, hf2⟩,
    ⟨hr2, hmem2, hda2, ?_, ?_, ?_, ?_, ?_, ?_⟩⟩
  · rw [hbuf1]
  · rw [hbuf1]; exact hh1
  · rw [hbuf1]
  · rw [hf1]
  · rw [hbuf2]
  · rw [hbuf2]; exact hh2
  · rw [hbuf2]
  · rw [hbuf2]; exact hk2
  · rw [hbuf2]; exact hp2
  · rw [hbuf2]

theorem alloc_free_alloc_lifecycle_witness :
    (exynos_drm_free_buf plain_dev 0
      (exynos_drm_alloc_buf sample_platform plain_dev empty_buf 0 empty_heap env_ok).buf).1.dma_addr
      = 0 ∧
    (exynos_drm_alloc_buf sample_platform plain_dev
      (exynos_drm_free_buf plain_dev 0
        (exynos_drm_alloc_buf sample_platform plain_dev empty_buf 0 empty_heap env_ok).buf).1
      4 (exynos_drm_alloc_buf sample_platform plain_dev empty_buf 0 empty_heap env_ok).heap
      env_ok2).buf.dma_addr ≠ 0 :=
  have h := alloc_free_alloc_lifecycle sample_platform plain_dev 0 0 4 empty_buf empty_heap
    env_ok env_ok2 _ _ _ (by decide) (by decide) (by decide) rfl rfl rfl
  ⟨h.2.1.1, h.2.2.2.2.2.2.1⟩

/-! ## The page list without IOMMU -/

/-- The loop keeps the length of the page array. -/
theorem fill_pages_length (P : platform) (nr_pages : Nat) :
    ∀ (fuel i start : Nat) (pages : List Nat),
      (fill_pages P nr_pages fuel i start pages).length = pages.length := by
  intro fuel
  induction fuel with
  | zero => intro i start pages; simp [fill_pages]
  | succ fuel ih =>
    intro i start pages
    unfold fill_pages
    split_ifs
    · rw [ih]; simp
    · rfl

/-- The loop, entered with enough iterations left, stores in every entry from
`i` up to `nr_pages` the handle of the page `j - i` strides after `start`, and
leaves the other entries alone. -/
theorem fill_pages_getElem? (P : platform) (nr_pages : Nat) :
    ∀ (fuel i start : Nat) (pages : List Nat), nr_pages ≤ i + fuel → start < WORD_RANGE →
      ∀ j, (fill_pages P nr_pages fuel i start pages)[j]? =
        if i ≤ j ∧ j < nr_pages ∧ j < pages.length then
          some (P.phys_to_page ((start + (j - i) * PAGE_SIZE P) % WORD_RANGE))
        else pages[j]? := by
  intro fuel
  induction fuel with
  | zero =>
    intro i start pages hfuel _ j
    have : ¬ (i ≤ j ∧ j < nr_pages ∧ j < pages.length) := by omega
    simp [fill_pages, this]
  | succ fuel ih =>
    intro i start pages hfuel hstart j
    unfold fill_pages
    by_cases hin : i < nr_pages
    · rw [if_pos hin, ih (i + 1) _ _ (by omega) (Nat.mod_lt _ (by decide)) j]
      rw [List.length_set, List.getElem?_set]
      by_cases hij : i = j
      · subst hij
        have h1 : ¬ (i + 1 ≤ i ∧ i < nr_pages ∧ i < pages.length) := by omega
        rw [if_neg h1, if_pos rfl]
        by_cases hl : i < pages.length
        · have h2 : i ≤ i ∧ i < nr_pages ∧ i < pages.length := ⟨le_refl _, hin, hl⟩
          rw [if_pos hl, if_pos h2]
          simp [Nat.mod_eq_of_lt hstart]
        · have h2 : ¬ (i ≤ i ∧ i < nr_pages ∧ i < pages.length) := by omega
          rw [if_neg hl, if_neg h2]
          simp at hl
          exact (List.getElem?_eq_none hl).symm
      · rw [if_neg hij]
        by_cases hc : i + 1 ≤ j ∧ j < nr_pages ∧ j < pages.length
        · have hc' : i ≤ j ∧ j < nr_pages ∧ j < pages.length := ⟨by omega, hc.2.1, hc.2.2⟩
          rw [if_pos hc, if_pos hc']
          congr 2
          rw [Nat.mod_add_mod]
          have : j - i = (j - (i + 1)) + 1 := by omega
          rw [this, Nat.add_mul, one_mul]
          congr 1
          omega
        · have hc' : ¬ (i ≤ j ∧ j < nr_pages ∧ j < pages.length) := by omega
          rw [if_neg hc, if_neg hc']
    · have hc' : ¬ (i ≤ j ∧ j < nr_pages ∧ j < pages.length) := by omega
      rw [if_neg hin, if_neg hc']

theorem lowlevel_buffer_allocate_sgt_not_err (P : platform) (dev : drm_device)
    (buf : exynos_drm_gem_buf) (heap : page_heap) (env : alloc_env) (nr_pages : Nat)
    (calls : List kcall)
    (h : IS_ERR (exynos_pages_to_sg P heap buf.pages nr_pages env).1 = false) :
    lowlevel_buffer_allocate_sgt P dev buf heap env nr_pages calls =
      ⟨0, { buf with sgt := (exynos_pages_to_sg P heap buf.pages nr_pages env).1 }, heap,
        calls ++ (exynos_pages_to_sg P heap buf.pages nr_pages env).2⟩ := by
  simp [lowlevel_buffer_allocate_sgt, h]

theorem lowlevel_buffer_allocate_sgt_err (P : platform) (dev : drm_device)
    (buf : exynos_drm_gem_buf) (heap : page_heap) (env : alloc_env) (nr_pages : Nat)
    (calls : List kcall)
    (h : IS_ERR (exynos_pages_to_sg P heap buf.pages nr_pages env).1 = true) :
    (lowlevel_buffer_allocate_sgt P dev buf heap env nr_pages calls).ret < 0 ∧
    (lowlevel_buffer_allocate_sgt P dev buf heap env nr_pages calls).buf =
      { buf with sgt := (exynos_pages_to_sg P heap buf.pages nr_pages env).1, dma_addr := 0 } := by
  have hneg := int32_PTR_ERR_neg _ h
  cases hi : is_drm_iommu_supported dev <;>
    simp [lowlevel_buffer_allocate_sgt, h, hi, hneg]

theorem exynos_pages_to_sg_call (P : platform) (heap : page_heap) (pages nr_pages : Nat)
    (env : alloc_env) (h : IS_ERR (exynos_pages_to_sg P heap pages nr_pages env).1 = false) :
    kcall.sg_alloc_table_from_pages env.kzalloc_ret pages (heap pages) nr_pages 0
      ((PAGE_SIZE P * nr_pages) % WORD_RANGE) (int32 env.sg_alloc_table_ret) ∈
      (exynos_pages_to_sg P heap pages nr_pages env).2 := by
  unfold exynos_pages_to_sg at h ⊢
  by_cases h1 : env.kzalloc_ret = 0
  · have herr : IS_ERR (ERR_PTR (-ENOMEM)) = true := by decide
    simp [h1, herr] at h
  · by_cases h2 : int32 env.sg_alloc_table_ret = 0 <;> simp [h1, h2]

/-- C9: after allocate has succeeded on an empty descriptor of a device without
IOMMU, the page array has `size >> PAGE_SHIFT` entries, which is the floor of
`size / PAGE_SIZE`, and was obtained from `drm_calloc_large` with that count;
entry `i` is `phys_to_page` of `dma_addr` plus `i` pages in `dma_addr_t`
arithmetic, that is `phys_to_page(dma_addr + i * PAGE_SIZE)` when
`dma_addr + size` does not pass the end of the address space, so each entry is
the page that follows the previous one; and `sg_alloc_table_from_pages` is
handed this array with that count, offset 0 and length `PAGE_SIZE * nr_pages`,
which is `size` when `PAGE_SIZE` divides `size`. -/
theorem plain_alloc_page_list (P : platform) (dev : drm_device) (flags : Nat)
    (buf : exynos_drm_gem_buf) (heap : page_heap) (env : alloc_env) (r : alloc_result)
    (hempty : buf.dma_addr = 0) (hi : is_drm_iommu_supported dev = false)
    (hsize : buf.size < WORD_RANGE)
    (hr : r = exynos_drm_alloc_buf P dev buf flags heap env)
    (hok : r.ret = 0) :
    (r.heap r.buf.pages).length = buf.size >>> P.PAGE_SHIFT ∧
    buf.size >>> P.PAGE_SHIFT = buf.size / PAGE_SIZE P ∧
    kcall.drm_calloc_large (buf.size >>> P.PAGE_SHIFT) r.buf.pages ∈ r.calls ∧
    (r.buf.dma_addr < WORD_RANGE → ∀ i, i < buf.size >>> P.PAGE_SHIFT →
      (r.heap r.buf.pages)[i]? =
        some (P.phys_to_page ((r.buf.dma_addr + i * PAGE_SIZE P) % WORD_RANGE))) ∧
    (r.buf.dma_addr + buf.size ≤ WORD_RANGE → ∀ i, i < buf.size >>> P.PAGE_SHIFT →
      (r.heap r.buf.pages)[i]? = some (P.phys_to_page (r.buf.dma_addr + i * PAGE_SIZE P))) ∧
    (r.buf.dma_addr + buf.size ≤ WORD_RANGE → ∀ i, i + 1 < buf.size >>> P.PAGE_SHIFT →
      (r.heap r.buf.pages)[i + 1]? =
        some (P.phys_to_page ((r.buf.dma_addr + i * PAGE_SIZE P) + PAGE_SIZE P))) ∧
    kcall.sg_alloc_table_from_pages env.kzalloc_ret r.buf.pages (r.heap r.buf.pages)
      (buf.size >>> P.PAGE_SHIFT) 0 (PAGE_SIZE P * (buf.size >>> P.PAGE_SHIFT))
      (int32 env.sg_alloc_table_ret) ∈ r.calls ∧
    (PAGE_SIZE P ∣ buf.size → PAGE_SIZE P * (buf.size >>> P.PAGE_SHIFT) = buf.size) := by
  have hps : PAGE_SIZE P = 2 ^ P.PAGE_SHIFT := by simp [PAGE_SIZE, Nat.one_shiftLeft]
  have hpos : 0 < PAGE_SIZE P := by rw [hps]; positivity
  have hnr : buf.size >>> P.PAGE_SHIFT = buf.size / PAGE_SIZE P := by
    rw [hps, Nat.shiftRight_eq_div_pow]
  have hle : PAGE_SIZE P * (buf.size >>> P.PAGE_SHIFT) ≤ buf.size := by
    rw [hnr]; exact Nat.mul_div_le _ _
  have hnrle : buf.size >>> P.PAGE_SHIFT ≤ buf.size := by
    rw [hnr]; exact Nat.div_le_self _ _
  have hmod1 : (buf.size >>> P.PAGE_SHIFT) % WORD_RANGE = buf.size >>> P.PAGE_SHIFT :=
    Nat.mod_eq_of_lt (by omega)
  have hmod2 : (PAGE_SIZE P * (buf.size >>> P.PAGE_SHIFT)) % WORD_RANGE
      = PAGE_SIZE P * (buf.size >>> P.PAGE_SHIFT) := Nat.mod_eq_of_lt (by omega)
  -- the allocations succeeded, or allocate would have returned `-ENOMEM`
  have hc : env.drm_calloc_large_ret ≠ 0 := by
    intro hc
    rw [hr] at hok
    simp [exynos_drm_alloc_buf, lowlevel_buffer_allocate, hempty, hi, hc, ENOMEM] at hok
  have hd : env.dma_alloc_ret ≠ 0 := by
    intro hd
    rw [hr] at hok
    simp [exynos_drm_alloc_buf, lowlevel_buffer_allocate, hempty, hi, hc, hd, ENOMEM] at hok
  have e := lowlevel_buffer_allocate_plain P dev flags buf heap env hempty hi hc hd
  rw [hmod1] at e
  have hnerr : IS_ERR (exynos_pages_to_sg P
      (Function.update heap env.drm_calloc_large_ret
        (fill_pages P (buf.size >>> P.PAGE_SHIFT) (buf.size >>> P.PAGE_SHIFT) 0
          env.dma_alloc_handle (List.replicate (buf.size >>> P.PAGE_SHIFT) 0)))
      env.drm_calloc_large_ret (buf.size >>> P.PAGE_SHIFT) env).1 = false := by
    by_contra hcon
    simp only [Bool.not_eq_false] at hcon
    have hneg := (lowlevel_buffer_allocate_sgt_err P dev
      { buf with dma_attrs := buffer_attrs P flags, pages := env.drm_calloc_large_ret,
                 kvaddr := env.dma_alloc_ret, dma_addr := env.dma_alloc_handle }
      (Function.update heap env.drm_calloc_large_ret
        (fill_pages P (buf.size >>> P.PAGE_SHIFT) (buf.size >>> P.PAGE_SHIFT) 0
          env.dma_alloc_handle (List.replicate (buf.size >>> P.PAGE_SHIFT) 0)))
      env (buf.size >>> P.PAGE_SHIFT)
      [kcall.drm_calloc_large (buf.size >>> P.PAGE_SHIFT) env.drm_calloc_large_ret,
       kcall.dma_alloc_attrs buf.size (buffer_attrs P flags) env.dma_alloc_ret
         env.dma_alloc_handle] hcon).1
    rw [← e] at hneg
    rw [hr] at hok
    simp [exynos_drm_alloc_buf, hneg, ENOMEM] at hok
  have hcall := exynos_pages_to_sg_call P _ _ _ env hnerr
  rw [lowlevel_buffer_allocate_sgt_not_err P dev
      { buf with dma_attrs := buffer_attrs P flags, pages := env.drm_calloc_large_ret,
                 kvaddr := env.dma_alloc_ret, dma_addr := env.dma_alloc_handle }
      _ env _ _ hnerr] at e
  have hr' : r = _ := hr.trans (by simp only [exynos_drm_alloc_buf, e]; rfl)
  subst hr'
  simp only [Function.update_same, hmod2] at hcall
  simp only [Function.update_same, hmod2, if_neg (lt_irrefl (0 : Int))]
  have hentry : ∀ i, i < buf.size >>> P.PAGE_SHIFT → env.dma_alloc_handle < WORD_RANGE →
      (fill_pages P (buf.size >>> P.PAGE_SHIFT) (buf.size >>> P.PAGE_SHIFT) 0
          env.dma_alloc_handle (List.replicate (buf.size >>> P.PAGE_SHIFT) 0))[i]? =
        some (P.phys_to_page ((env.dma_alloc_handle + i * PAGE_SIZE P) % WORD_RANGE)) := by
    intro i hlt hh
    rw [fill_pages_getElem? P _ _ 0 _ _ (by omega) hh i]
    simp [hlt]
  have hnowrap : env.dma_alloc_handle + buf.size ≤ WORD_RANGE → ∀ i,
      i < buf.size >>> P.PAGE_SHIFT →
      env.dma_alloc_handle + i * PAGE_SIZE P < WORD_RANGE := by
    intro hw i hlt
    have h1 : (i + 1) * PAGE_SIZE P ≤ (buf.size >>> P.PAGE_SHIFT) * PAGE_SIZE P :=
      Nat.mul_le_mul_right _ hlt
    rw [Nat.add_mul, one_mul, Nat.mul_comm (buf.size >>> P.PAGE_SHIFT)] at h1
    omega
  refine ⟨?_, hnr, ?_, ?_, ?_, ?_, ?_, ?_⟩
  · rw [fill_pages_length]; simp
  · simp
  · intro hh i hlt
    exact hentry i hlt hh
  · intro hw i hlt
    have hlt' := hnowrap hw i hlt
    rw [hentry i hlt (by omega), Nat.mod_eq_of_lt hlt']
  · intro hw i hlt
    have hlt' := hnowrap hw (i + 1) hlt
    rw [hentry (i + 1) hlt (by omega), Nat.mod_eq_of_lt hlt', Nat.add_mul, one_mul, Nat.add_assoc]
  · simp only [List.mem_append]
    exact Or.inr hcall
  · intro hdvd
    rw [hnr]
    exact Nat.mul_div_cancel' hdvd

theorem plain_alloc_page_list_witness :
    ((exynos_drm_alloc_buf sample_platform plain_dev empty_buf 0 empty_heap env_ok).heap
      (exynos_drm_alloc_buf sample_platform plain_dev empty_buf 0 empty_heap
        env_ok).buf.pages).length = 2 ∧
    ((exynos_drm_alloc_buf sample_platform plain_dev empty_buf 0 empty_heap env_ok).heap
      (exynos_drm_alloc_buf sample_platform plain_dev empty_buf 0 empty_heap
        env_ok).buf.pages)[1]? = some 262145 :=
  have h := plain_alloc_page_list sample_platform plain_dev 0 empty_buf empty_heap env_ok _
    (by decide) (by decide) (by decide) rfl (by decide)
  ⟨h.1, h.2.2.2.2.1 (by decide) 1 (by decide)⟩

/-! ## The descriptor invariant -/

theorem exynos_pages_to_sg_ne_null (P : platform) (heap : page_heap) (pages nr_pages : Nat)
    (env : alloc_env) : (exynos_pages_to_sg P heap pages nr_pages env).1 ≠ 0 := by
  unfold exynos_pages_to_sg
  by_cases h1 : env.kzalloc_ret = 0
  · simp only [h1, if_true]
    decide
  · by_cases h2 : int32 env.sg_alloc_table_ret = 0
    · simp [h1, h2]
    · simp only [h1, h2, if_false, ne_eq, not_false_eq_true, if_true]
      unfold ERR_PTR
      unfold int32 at h2 ⊢
      omega

theorem alloc_keeps_invariant (P : platform) (dev : drm_device) (flags : Nat)
    (buf : exynos_drm_gem_buf) (heap : page_heap) (env : alloc_env)
    (hinv : sgt_present buf ↔ buf.dma_addr ≠ 0)
    (hsound : env.dma_alloc_ret ≠ 0 ↔ env.dma_alloc_handle ≠ 0) :
    sgt_present (exynos_drm_alloc_buf P dev buf flags heap env).buf ↔
      (exynos_drm_alloc_buf P dev buf flags heap env).buf.dma_addr ≠ 0 := by
  rw [exynos_drm_alloc_buf_buf]
  by_cases hempty : buf.dma_addr = 0
  · have hnp : ¬ sgt_present buf := fun h => (hinv.1 h) hempty
    have hstep : ∀ (b : exynos_drm_gem_buf) (h : page_heap) (n : Nat) (calls : List kcall),
        b.dma_addr = env.dma_alloc_handle → env.dma_alloc_ret ≠ 0 →
        (sgt_present (lowlevel_buffer_allocate_sgt P dev b h env n calls).buf ↔
          (lowlevel_buffer_allocate_sgt P dev b h env n calls).buf.dma_addr ≠ 0) := by
      intro b h n calls hb hd
      by_cases herr : IS_ERR (exynos_pages_to_sg P h b.pages n env).1 = true
      · rw [(lowlevel_buffer_allocate_sgt_err P dev b h env n calls herr).2]
        simp [sgt_present, herr]
      · simp only [Bool.not_eq_true] at herr
        rw [lowlevel_buffer_allocate_sgt_not_err P dev b h env n calls herr]
        simp [sgt_present, herr, exynos_pages_to_sg_ne_null, hb, hsound.1 hd]
    cases hi : is_drm_iommu_supported dev
    · by_cases hc : env.drm_calloc_large_ret = 0
      · simpa [lowlevel_buffer_allocate, hempty, hi, hc, sgt_present] using hnp
      · by_cases hd : env.dma_alloc_ret = 0
        · have hh : env.dma_alloc_handle = 0 := by
            by_contra hne; exact (hsound.2 hne) hd
          simpa [lowlevel_buffer_allocate, hempty, hi, hc, hd, hh, sgt_present] using hnp
        · rw [lowlevel_buffer_allocate_plain P dev flags buf heap env hempty hi hc hd]
          exact hstep _ _ _ _ rfl hd
    · by_cases hd : env.dma_alloc_ret = 0
      · have hh : env.dma_alloc_handle = 0 := by
          by_contra hne; exact (hsound.2 hne) hd
        simpa [lowlevel_buffer_allocate, hempty, hi, hd, hh, sgt_present] using hnp
      · rw [lowlevel_buffer_allocate_iommu P dev flags buf heap env hempty hi hd]
        exact hstep _ _ _ _ rfl hd
  · simpa [lowlevel_buffer_allocate, hempty] using hinv

theorem free_keeps_invariant (dev : drm_device) (flags : Nat) (buf : exynos_drm_gem_buf)
    (hinv : sgt_present buf ↔ buf.dma_addr ≠ 0) :
    sgt_present (exynos_drm_free_buf dev flags buf).1 ↔
      (exynos_drm_free_buf dev flags buf).1.dma_addr ≠ 0 := by
  by_cases hempty : buf.dma_addr = 0
  · simpa [exynos_drm_free_buf, lowlevel_buffer_deallocate, hempty] using hinv
  · simp [exynos_drm_free_buf, lowlevel_buffer_deallocate, hempty, sgt_present]

theorem buf_run_keeps_invariant (P : platform) (dev : drm_device) (ops : List buf_op) :
    ∀ s : exynos_drm_gem_buf × page_heap, (sgt_present s.1 ↔ s.1.dma_addr ≠ 0) →
      (∀ op ∈ ops, op.dma_sound) →
      (sgt_present (buf_run P dev s ops).1 ↔ (buf_run P dev s ops).1.dma_addr ≠ 0) := by
  induction ops with
  | nil => intro s hinv _; simpa [buf_run] using hinv
  | cons op ops ih =>
    intro s hinv hs
    have hop := hs op (List.mem_cons_self _ _)
    have hrest : ∀ o ∈ ops, o.dma_sound := fun o ho => hs o (List.mem_cons_of_mem _ ho)
    have hstep : sgt_present (buf_step P dev s op).1 ↔ (buf_step P dev s op).1.dma_addr ≠ 0 := by
      cases op with
      | allocate flags env => exact alloc_keeps_invariant P dev flags s.1 s.2 env hinv hop
      | release flags => exact free_keeps_invariant dev flags s.1 hinv
    exact ih (buf_step P dev s op) hstep hrest

/-- C5 as stated fails: take the descriptor `exynos_drm_init_buf` makes for two
pages, on a device without IOMMU, and one allocate during which the
allocations succeed and `sg_alloc_table_from_pages` returns `-EINVAL`.
Afterwards `dma_addr` is 0 while `sgt` holds `ERR_PTR(-22)`, `0xffffffea`, a
non-`NULL` pointer. -/
theorem sgt_error_pointer_after_failed_alloc :
    exynos_drm_init_buf plain_dev 8192 4096 = some empty_buf ∧
    (buf_run sample_platform plain_dev (empty_buf, empty_heap)
      [buf_op.allocate 0 env_sg_einval]).1.dma_addr = 0 ∧
    (buf_run sample_platform plain_dev (empty_buf, empty_heap)
      [buf_op.allocate 0 env_sg_einval]).1.sgt = 4294967274 ∧
    (buf_run sample_platform plain_dev (empty_buf, empty_heap)
      [buf_op.allocate 0 env_sg_einval]).1.sgt ≠ 0 := by
  decide

/-- C5, amended: start from a descriptor made by `exynos_drm_init_buf` and run
any sequence of allocate and release calls in which `dma_alloc_attrs`, when
called, leaves a non-zero device address exactly when it returns a buffer
(the other services may succeed or fail at will).  After every operation of the
sequence, the descriptor has a scatter table (`sgt` neither `NULL` nor an error
pointer) if and only if `dma_addr` is non-zero. -/
theorem sgt_present_iff_bound (P : platform) (dev : drm_device) (size kzalloc_ret : Nat)
    (buf : exynos_drm_gem_buf) (heap : page_heap) (ops : List buf_op) (k : Nat)
    (hinit : exynos_drm_init_buf dev size kzalloc_ret = some buf)
    (hsound : ∀ op ∈ ops, op.dma_sound) :
    sgt_present (buf_run P dev (buf, heap) (ops.take k)).1 ↔
      (buf_run P dev (buf, heap) (ops.take k)).1.dma_addr ≠ 0 := by
  have hbuf : buf.sgt = 0 ∧ buf.dma_addr = 0 := by
    unfold exynos_drm_init_buf at hinit
    by_cases hk : kzalloc_ret = 0
    · simp [hk] at hinit
    · simp only [hk, if_false, Option.some.injEq] at hinit
      rw [← hinit]
      exact ⟨rfl, rfl⟩
  apply buf_run_keeps_invariant P dev (ops.take k) (buf, heap)
  · simp [sgt_present, hbuf.1, hbuf.2]
  · intro op hop
    exact hsound op (List.mem_of_mem_take hop)

theorem sgt_present_iff_bound_witness :
    sgt_present (buf_run sample_platform plain_dev (empty_buf, empty_heap)
      (sample_ops.take 2)).1 ↔
    (buf_run sample_platform plain_dev (empty_buf, empty_heap)
      (sample_ops.take 2)).1.dma_addr ≠ 0 :=
  sgt_present_iff_bound sample_platform plain_dev 8192 4096 empty_buf empty_heap sample_ops 2
    (by decide) (by decide)

/-- Why the invariant needs the condition on the DMA allocator: if it succeeds
with device address 0, allocate returns 0 and installs a scatter table while
`dma_addr` stays 0. -/
theorem sgt_present_with_zero_address :
    (exynos_drm_alloc_buf sample_platform iommu_dev empty_buf 0 empty_heap
      env_zero_address).ret = 0 ∧
    sgt_present (exynos_drm_alloc_buf sample_platform iommu_dev empty_buf 0 empty_heap
      env_zero_address).buf ∧
    (exynos_drm_alloc_buf sample_platform iommu_dev empty_buf 0 empty_heap
      env_zero_address).buf.dma_addr = 0 := by
  decide

end ExynosDrmBuf
